import Mathlib

/-!
Shallow embedding of the orchestration core of the aviation multi-agent
system (`aviation_agents`): keyword routing, fan-out/fan-in execution,
response synthesis and the domain tool layer, together with proofs of the
spec's testable properties.
-/

namespace Aviation

/-! ## Python string primitives

Python's `needle in haystack` substring test and `str.lower()` /
`str.title()`, modelled over `List Char`. -/

/-- `charsStart n h`: `h` starts with `n` (Python `h.startswith(n)` over chars). -/
def charsStart : List Char → List Char → Bool
  | [], _ => true
  | _ :: _, [] => false
  | c :: cs, d :: ds => c == d && charsStart cs ds

/-- `charsContain n h`: `n` occurs contiguously somewhere in `h`
(Python `n in h`). -/
def charsContain : List Char → List Char → Bool
  | n, [] => charsStart n []
  | n, h :: t => charsStart n (h :: t) || charsContain n t

/-- Python `str.lower()` (ASCII case folding, which covers every keyword in
the routing tables). -/
def pyLower (s : String) : String :=
  ⟨s.data.map Char.toLower⟩

/-- Python `needle in haystack` on strings. -/
def strContains (haystack needle : String) : Bool :=
  charsContain needle.data haystack.data

/-- One step of Python `str.title()`: the boolean records whether the
previous character was alphabetic. -/
def pyTitleGo : Bool → List Char → List Char
  | _, [] => []
  | prevAlpha, c :: cs =>
      (if c.isAlpha then (if prevAlpha then c.toLower else c.toUpper) else c)
        :: pyTitleGo c.isAlpha cs

/-- Python `str.title()`. -/
def pyTitle (s : String) : String :=
  ⟨pyTitleGo false s.data⟩

/-- Python `s.replace('_', ' ')`. -/
def underscoresToSpaces (s : String) : String :=
  ⟨s.data.map fun c => if c == '_' then ' ' else c⟩

theorem charsStart_iff (n h : List Char) :
    charsStart n h = true ↔ ∃ t, h = n ++ t := by
  induction n generalizing h with
  | nil => simp [charsStart]
  | cons c cs ih =>
    cases h with
    | nil =>
      simp [charsStart]
    | cons d ds =>
      simp only [charsStart, Bool.and_eq_true, beq_iff_eq, ih, List.cons_append,
        List.cons.injEq]
      constructor
      · rintro ⟨rfl, t, rfl⟩; exact ⟨t, rfl, rfl⟩
      · rintro ⟨t, rfl, rfl⟩; exact ⟨rfl, t, rfl⟩

theorem charsContain_iff (n h : List Char) :
    charsContain n h = true ↔ ∃ x y, h = x ++ n ++ y := by
  induction h with
  | nil =>
    simp only [charsContain, charsStart_iff]
    constructor
    · rintro ⟨t, ht⟩
      exact ⟨[], t, by simpa using ht⟩
    · rintro ⟨x, y, hxy⟩
      have hx : x = [] := by
        cases x with
        | nil => rfl
        | cons a as => simp at hxy
      subst hx
      exact ⟨y, by simpa using hxy⟩
  | cons d ds ih =>
    simp only [charsContain, Bool.or_eq_true, charsStart_iff, ih]
    constructor
    · rintro (⟨t, ht⟩ | ⟨x, y, hxy⟩)
      · exact ⟨[], t, by simpa using ht⟩
      · exact ⟨d :: x, y, by simp [hxy]⟩
    · rintro ⟨x, y, hxy⟩
      cases x with
      | nil => exact Or.inl ⟨y, by simpa using hxy⟩
      | cons a as =>
        simp only [List.cons_append, List.cons.injEq] at hxy
        exact Or.inr ⟨as, y, hxy.2⟩

theorem charsContain_of_middle (n x y : List Char) :
    charsContain n (x ++ n ++ y) = true :=
  (charsContain_iff n _).mpr ⟨x, y, rfl⟩

theorem charsContain_trans {a b c : List Char}
    (hab : charsContain a b = true) (hbc : charsContain b c = true) :
    charsContain a c = true := by
  obtain ⟨u, v, rfl⟩ := (charsContain_iff b c).mp hbc
  obtain ⟨x, y, rfl⟩ := (charsContain_iff a b).mp hab
  exact (charsContain_iff a _).mpr ⟨u ++ x, y ++ v, by simp⟩

/-- A string built as `x ++ n ++ y` contains `n`. -/
theorem strContains_of_middle (x n y : String) :
    strContains (x ++ n ++ y) n = true := by
  have : (x ++ n ++ y).data = x.data ++ n.data ++ y.data := by
    simp [String.data_append]
  simpa [strContains, this] using charsContain_of_middle n.data x.data y.data

/-- A string starting with `n` contains `n`. -/
theorem strContains_of_left (n t : String) :
    strContains (n ++ t) n = true := by
  have := strContains_of_middle "" n t
  simpa using this

/-- Containment is preserved by appending on the right. -/
theorem strContains_append_right {s n : String} (t : String)
    (h : strContains s n = true) : strContains (s ++ t) n = true := by
  obtain ⟨x, y, hxy⟩ := (charsContain_iff n.data s.data).mp h
  refine (charsContain_iff n.data (s ++ t).data).mpr ⟨x, y ++ t.data, ?_⟩
  simp [String.data_append, hxy]

/-! ## Data model

`RequestContext`, `TaskState` and artifacts, following
`executors/base_executor.py`'s interface as documented in the spec (§3) and
used throughout `executors/*.py`. -/

/-- `RequestContext` (spec §3): immutable per-invocation record. -/
structure RequestContext where
  task_id : String
  context_id : String
  user_message : String
  tenant_id : String
  user_id : String
deriving Repr, DecidableEq

/-- `TaskState` lifecycle states (spec §3 `TaskStatus`). -/
inductive TaskState where
  | pending
  | working
  | completed
  | failed
deriving Repr, DecidableEq

/-- Metadata values appearing in artifact metadata dictionaries. -/
inductive MetaVal where
  | s (v : String)
  | b (v : Bool)
  | list (v : List String)
deriving Repr, DecidableEq

/-- `Artifact` (spec §3): terminal output payload of one task execution.
The general-query wrapper in `orchestrator_executor.py` uses the dict key
`"type"` for the same field. -/
structure Artifact where
  content : String
  artifact_type : String
  metadata : List (String × MetaVal)
deriving Repr, DecidableEq

/-- `AgentExecutionResult`, the value returned by a domain agent executor's
top-level `execute` (spec §3); `_synthesize_responses` reads only its
`artifacts` list. -/
structure AgentExecutionResult where
  agent_name : String
  status : TaskState
  artifacts : List Artifact
  error : Option String
deriving Repr, DecidableEq

/-- Outcome of one `execute_task` run as observed through the
`TaskUpdater`: the terminal state, the artifacts added, and the failure
message passed to `task_updater.fail`, if any. -/
structure TaskOutcome where
  state : TaskState
  artifacts : List Artifact
  error : Option String
deriving Repr, DecidableEq

/-! ## Domain classification (`OrchestratorAgentExecutor`) -/

/-- The three routing domains of `OrchestratorAgentExecutor.agent_routing`. -/
inductive Domain where
  | hr
  | meeting
  | supplyChain
deriving Repr, DecidableEq

/-- The dict key of each domain in `agent_routing` (also the agent tag used
for task-id suffixes and response entries). -/
def agentTag : Domain → String
  | .hr => "hr"
  | .meeting => "meeting"
  | .supplyChain => "supply_chain"

/-- `agent_routing` keyword table (orchestrator_executor.py lines 55-59). -/
def agentRouting : Domain → List String
  | .hr => ["employee", "staff", "training", "certification", "hire", "onboard", "hr", "personnel"]
  | .meeting => ["meeting", "room", "book", "schedule", "conference", "reservation", "calendar"]
  | .supplyChain => ["inventory", "parts", "supplier", "order", "stock", "procurement", "purchase"]

/-- Iteration order of the `agent_routing` dict (Python insertion order). -/
def allDomains : List Domain := [.hr, .meeting, .supplyChain]

/-- `OrchestratorAgentExecutor._determine_required_agents`: a domain is
selected iff any of its keywords occurs in the lower-cased message.  The
Python code returns a list of dicts with keys `agent`, `executor` and
`priority`;
the executor field is recovered from the tag, so the list of domains is a
faithful rendering. -/
def determineRequiredAgents (user_message : String) : List Domain :=
  allDomains.filter fun d =>
    (agentRouting d).any fun keyword => strContains (pyLower user_message) keyword

/-! ## Fan-out execution -/

/-- The `"result"` field of an agent-response entry: either the result dict
returned by `execute`, or the error string recorded by the `except` branch. -/
inductive RespVal where
  | dict (r : AgentExecutionResult)
  | str (s : String)
deriving Repr, DecidableEq

/-- One entry of the agent-responses list built by
`_execute_agents_parallel` / `_execute_agents_sequential` /
`_handle_general_query`. -/
structure AgentResponse where
  agent : String
  result : RespVal
  status : String
deriving Repr, DecidableEq

/-- A domain agent executor's `execute`, abstracted: it either returns an
`AgentExecutionResult` or raises (`Except.error` carries `str(e)`). -/
def ExecOracle := Domain → RequestContext → Except String AgentExecutionResult

/-- The completion capability behind `BaseAgentExecutor._call_llm` as the
orchestrator sees it (spec §6: `complete` may fail; the orchestrator wraps
every call in `try/except`). -/
def LlmOracle := String → Except String String

/-- The derived per-agent context: `task_id` is the parent task id suffixed
by the agent tag (orchestrator_executor.py lines 133-139 and 173-179). -/
def deriveContext (ctx : RequestContext) (d : Domain) : RequestContext :=
  { ctx with task_id := ctx.task_id ++ "_" ++ agentTag d }

/-- The response entry recorded for one domain agent branch: `success` with
the result on normal return, `error` with `"Agent execution failed: "` +
message when `execute` raised. -/
def branchResponse (oracle : ExecOracle) (ctx : RequestContext) (d : Domain) :
    AgentResponse :=
  match oracle d (deriveContext ctx d) with
  | .ok r => ⟨agentTag d, .dict r, "success"⟩
  | .error e => ⟨agentTag d, .str ("Agent execution failed: " ++ e), "error"⟩

/-- `_execute_agents_parallel`: the branches are awaited in creation order
and their results appended in that order, so the cooperative fan-out is
observationally this map. -/
def executeAgentsParallel (oracle : ExecOracle) (required : List Domain)
    (ctx : RequestContext) : List AgentResponse :=
  required.map (branchResponse oracle ctx)

/-- `_execute_agents_sequential`: same entries, produced one at a time. -/
def executeAgentsSequential (oracle : ExecOracle) (required : List Domain)
    (ctx : RequestContext) : List AgentResponse :=
  required.map (branchResponse oracle ctx)

/-- `_handle_general_query`: wrap the completion text as a COMPLETED result
with a single `"general_response"`-typed artifact, or record the completion
failure as an error entry. -/
def handleGeneralQuery (llm : LlmOracle) (ctx : RequestContext) : AgentResponse :=
  match llm ctx.user_message with
  | .ok response =>
      ⟨"orchestrator",
       .dict { agent_name := "Orchestrator", status := .completed,
               artifacts := [⟨response, "general_response", []⟩], error := none },
       "success"⟩
  | .error e => ⟨"orchestrator", .str ("General query failed: " ++ e), "error"⟩

/-! ## Response synthesis (`_synthesize_responses`) -/

/-- `response_data["artifacts"][0]["content"]` when the result is a dict
with artifacts, `str(response_data)` otherwise; Python raises `IndexError`
on an empty artifact list, rendered as `Except.error`. -/
def respContent : RespVal → Except String String
  | .dict r =>
      match r.artifacts with
      | [] => .error "IndexError: list index out of range"
      | a :: _ => .ok a.content
  | .str s => .ok s

/-- The synthesis-prompt fragment contributed by one agent response
(orchestrator_executor.py lines 236-246). -/
def promptEntries : List AgentResponse → Except String String
  | [] => .ok ""
  | r :: rs => do
      let piece ←
        if r.status == "success" then
          (respContent r.result).map fun content =>
            "**" ++ pyTitle r.agent ++ " Agent Response:**\n" ++ content ++ "\n\n"
        else
          .ok ("**" ++ pyTitle r.agent ++ " Agent:** Failed to process request\n\n")
      let rest ← promptEntries rs
      .ok (piece ++ rest)

/-- Fixed header of the synthesis prompt. -/
def synthesisHeader (user_message : String) : String :=
  "Based on the user query: \"" ++ user_message ++
    "\"\n\nThe following specialized agents have provided responses:\n\n"

/-- Fixed trailing instruction of the synthesis prompt. -/
def synthesisFooter : String :=
  "Please synthesize these responses into a single, coherent response that addresses the user's query comprehensively. Organize the information logically and highlight key insights from each agent."

/-- The full synthesis prompt built for the multi-agent branch. -/
def buildSynthesisPrompt (responses : List AgentResponse) (user_message : String) :
    Except String String :=
  (promptEntries responses).map fun body =>
    synthesisHeader user_message ++ body ++ synthesisFooter

/-- The fallback fragment contributed by one agent response
(orchestrator_executor.py lines 256-265): error-status entries are skipped. -/
def fallbackEntries : List AgentResponse → Except String String
  | [] => .ok ""
  | r :: rs => do
      let piece ←
        if r.status == "success" then
          (respContent r.result).map fun content =>
            "## " ++ pyTitle r.agent ++ " Agent:\n" ++ content ++ "\n\n"
        else
          .ok ""
      let rest ← fallbackEntries rs
      .ok (piece ++ rest)

/-- Fixed header of the concatenation fallback. -/
def fallbackHeader : String :=
  "Here are the responses from our specialized agents:\n\n"

/-- `OrchestratorAgentExecutor._synthesize_responses`: single-entry lists
pass the content through; otherwise build the synthesis prompt, call the
completion capability, and on its failure fall back to the deterministic
concatenation. -/
def synthesizeResponses (llm : LlmOracle) (responses : List AgentResponse)
    (user_message : String) : Except String String :=
  match responses with
  | [r] => respContent r.result
  | rs => do
      let prompt ← buildSynthesisPrompt rs user_message
      match llm prompt with
      | .ok synthesized => .ok synthesized
      | .error _ => (fallbackEntries rs).map fun body => fallbackHeader ++ body

/-! ## Orchestrator `execute_task` -/

/-- `OrchestratorAgentExecutor.execute_task`: classify, fan out (parallel
for more than one matched domain, sequential for exactly one, the general
path for zero), synthesize, and add the single final
`"orchestrated_response"` artifact.  An exception escaping synthesis is
caught by the top-level handler, which fails the task with
`"Orchestration failed: "` + message. -/
def orchestratorExecuteTask (llm : LlmOracle) (oracle : ExecOracle)
    (ctx : RequestContext) : TaskOutcome :=
  let required := determineRequiredAgents ctx.user_message
  let agent_responses :=
    if required.length > 1 then executeAgentsParallel oracle required ctx
    else if required.length == 1 then executeAgentsSequential oracle required ctx
    else [handleGeneralQuery llm ctx]
  match synthesizeResponses llm agent_responses ctx.user_message with
  | .ok final_response =>
      { state := .completed,
        artifacts := [⟨final_response, "orchestrated_response",
          [("agent_type", .s "orchestrator"),
           ("sub_agents_used", .list (required.map agentTag)),
           ("tenant_id", .s ctx.tenant_id)]⟩],
        error := none }
  | .error e =>
      { state := .failed, artifacts := [], error := some ("Orchestration failed: " ++ e) }

/-! ## Python values

Tool results and tool arguments are Python dicts; `PyVal` renders them
faithfully enough for the executors' response formatting (`str()` of a
scalar, `repr()`-style rendering inside containers). -/

inductive PyVal where
  | s (v : String)
  | i (v : Int)
  | b (v : Bool)
  | none_
  | list (vs : List PyVal)
  | dict (kvs : List (String × PyVal))

mutual

/-- Python `repr` of a value (as used when a container is interpolated). -/
def pyRepr : PyVal → String
  | .s v => "'" ++ v ++ "'"
  | .i v => toString v
  | .b true => "True"
  | .b false => "False"
  | .none_ => "None"
  | .list vs => "[" ++ pyReprSeq vs ++ "]"
  | .dict kvs => "\x7b" ++ pyReprItems kvs ++ "\x7d"

/-- Comma-separated `repr`s of a list's elements. -/
def pyReprSeq : List PyVal → String
  | [] => ""
  | [v] => pyRepr v
  | v :: vs => pyRepr v ++ ", " ++ pyReprSeq vs

/-- Comma-separated `'key': repr(value)` items of a dict. -/
def pyReprItems : List (String × PyVal) → String
  | [] => ""
  | [(k, v)] => "'" ++ k ++ "': " ++ pyRepr v
  | (k, v) :: kvs => "'" ++ k ++ "': " ++ pyRepr v ++ ", " ++ pyReprItems kvs

end

/-- Python `str()` of a value (strings unquoted, containers via `repr`). -/
def pyStr : PyVal → String
  | .s v => v
  | v => pyRepr v

/-! ## Domain executor tool-detection passes (`_process_*_tools`) -/

/-- One entry of a `tool_results` list, a dict with a `tool` name and a
`result` value;
the `except` branch stores the tool name `"error"` and a message string. -/
structure ToolEntry where
  tool : String
  result : PyVal

/-- The shared control flow of `_process_hr_tools` /
`_process_meeting_tools` / `_process_supply_chain_tools`: one `try` block
wraps every keyword group in order; a fired group appends its entry; a
raising tool call jumps to the single `except`, which appends one
error entry (tool name `"error"`) after the entries already collected and
skips the remaining groups. -/
def processToolGroups : List (Bool × String × Except String PyVal) → List ToolEntry
  | [] => []
  | (cond, name, call) :: rest =>
      if cond then
        match call with
        | .ok r => ⟨name, r⟩ :: processToolGroups rest
        | .error e => [⟨"error", .s ("Tool execution failed: " ++ e)⟩]
      else processToolGroups rest

/-- `any(keyword in message_lower for keyword in keywords)`. -/
def anyKw (keywords : List String) (message_lower : String) : Bool :=
  keywords.any fun keyword => strContains message_lower keyword

/-- The HR tool layer as the HR executor awaits it: each operation takes
its argument dict and either returns a result value or raises. -/
structure HrTools where
  create_employee_record : PyVal → Except String PyVal
  schedule_training : PyVal → Except String PyVal
  track_certification : PyVal → Except String PyVal
  generate_hr_report : PyVal → Except String PyVal

/-- Argument dict of the `create_employee_record` call (hr_executor.py). -/
def hrCreateEmployeeArgs (ctx : RequestContext) : PyVal :=
  .dict [("name", .s "Sample Employee"),
         ("employee_id", .s ("EMP_" ++ ctx.task_id.take 8)),
         ("position", .s "Aviation Specialist"),
         ("department", .s "Operations"),
         ("hire_date", .s "2024-01-01"),
         ("certifications", .list [])]

/-- Argument dict of the `schedule_training` call (hr_executor.py). -/
def hrScheduleTrainingArgs (ctx : RequestContext) : PyVal :=
  .dict [("employee_id", .s ("EMP_" ++ ctx.task_id.take 8)),
         ("training_type", .s "Safety Training"),
         ("scheduled_date", .s "2024-02-01"),
         ("instructor", .s "Safety Officer"),
         ("duration_hours", .i 8)]

/-- Argument dict of the `track_certification` call (hr_executor.py). -/
def hrTrackCertificationArgs (ctx : RequestContext) : PyVal :=
  .dict [("employee_id", .s ("EMP_" ++ ctx.task_id.take 8)),
         ("certification_type", .s "Pilot License"),
         ("certification_number", .s "PPL123456"),
         ("issue_date", .s "2023-01-01"),
         ("expiry_date", .s "2025-01-01"),
         ("status", .s "active")]

/-- Argument dict of the `generate_hr_report` call (hr_executor.py). -/
def hrGenerateReportArgs : PyVal :=
  .dict [("report_type", .s "employee_summary"),
         ("department", .s "Operations"),
         ("date_range", .s "2024-01-01_2024-12-31")]

/-- `HRAgentExecutor._process_hr_tools`: keyword groups in source order. -/
def processHrTools (tools : HrTools) (user_message : String) (ctx : RequestContext) :
    List ToolEntry :=
  let ml := pyLower user_message
  processToolGroups
    [(anyKw ["create employee", "add employee", "new hire", "onboard"] ml,
      "create_employee_record", tools.create_employee_record (hrCreateEmployeeArgs ctx)),
     (anyKw ["training", "schedule", "course"] ml,
      "schedule_training", tools.schedule_training (hrScheduleTrainingArgs ctx)),
     (anyKw ["certification", "license", "track", "expiry"] ml,
      "track_certification", tools.track_certification (hrTrackCertificationArgs ctx)),
     (anyKw ["report", "generate", "summary"] ml,
      "generate_hr_report", tools.generate_hr_report hrGenerateReportArgs)]

/-- The meeting tool layer as the meeting executor awaits it. -/
structure MeetingTools where
  book_meeting_room : PyVal → Except String PyVal
  check_room_availability : PyVal → Except String PyVal
  cancel_booking : PyVal → Except String PyVal
  generate_meeting_report : PyVal → Except String PyVal

/-- Argument dict of the `book_meeting_room` call (meeting_executor.py). -/
def meetingBookArgs (ctx : RequestContext) : PyVal :=
  .dict [("room_id", .s "CONF_A1"),
         ("meeting_title", .s "Aviation Team Meeting"),
         ("organizer", .s ctx.user_id),
         ("start_time", .s "2024-02-01T10:00:00"),
         ("end_time", .s "2024-02-01T11:00:00"),
         ("attendees", .list [.s "team@aviation.com"]),
         ("equipment_needed", .list [.s "projector", .s "conference_phone"])]

/-- Argument dict of the `check_room_availability` call (meeting_executor.py). -/
def meetingAvailabilityArgs : PyVal :=
  .dict [("room_id", .s "CONF_A1"),
         ("date", .s "2024-02-01"),
         ("start_time", .s "09:00"),
         ("end_time", .s "17:00")]

/-- Argument dict of the `cancel_booking` call (meeting_executor.py). -/
def meetingCancelArgs (ctx : RequestContext) : PyVal :=
  .dict [("booking_id", .s ("BOOK_" ++ ctx.task_id.take 8)),
         ("reason", .s "User requested cancellation"),
         ("cancelled_by", .s ctx.user_id)]

/-- Argument dict of the `generate_meeting_report` call (meeting_executor.py). -/
def meetingReportArgs : PyVal :=
  .dict [("report_type", .s "room_utilization"),
         ("date_range", .s "2024-01-01_2024-01-31"),
         ("room_filter", .s "all")]

/-- `MeetingAgentExecutor._process_meeting_tools`. -/
def processMeetingTools (tools : MeetingTools) (user_message : String)
    (ctx : RequestContext) : List ToolEntry :=
  let ml := pyLower user_message
  processToolGroups
    [(anyKw ["book", "reserve", "schedule meeting", "room booking"] ml,
      "book_meeting_room", tools.book_meeting_room (meetingBookArgs ctx)),
     (anyKw ["availability", "check", "available", "free"] ml,
      "check_room_availability", tools.check_room_availability meetingAvailabilityArgs),
     (anyKw ["cancel", "delete", "remove booking"] ml,
      "cancel_booking", tools.cancel_booking (meetingCancelArgs ctx)),
     (anyKw ["report", "summary", "meeting stats"] ml,
      "generate_meeting_report", tools.generate_meeting_report meetingReportArgs)]

/-- The supply-chain tool layer as the supply-chain executor awaits it. -/
structure SupplyChainTools where
  track_inventory : PyVal → Except String PyVal
  order_parts : PyVal → Except String PyVal
  check_supplier_status : PyVal → Except String PyVal
  generate_inventory_report : PyVal → Except String PyVal

/-- Argument dict of the `track_inventory` call (supply_chain_executor.py). -/
def supplyTrackArgs : PyVal :=
  .dict [("part_number", .s "ENG_PART_001"),
         ("location", .s "Main Warehouse"),
         ("check_type", .s "current_stock")]

/-- Argument dict of the `order_parts` call (supply_chain_executor.py). -/
def supplyOrderArgs : PyVal :=
  .dict [("part_number", .s "ENG_PART_001"),
         ("quantity", .i 5),
         ("supplier_id", .s "SUP_001"),
         ("priority", .s "normal"),
         ("delivery_date", .s "2024-02-15"),
         ("cost_center", .s "Maintenance")]

/-- Argument dict of the `check_supplier_status` call (supply_chain_executor.py). -/
def supplySupplierArgs : PyVal :=
  .dict [("supplier_id", .s "SUP_001"),
         ("check_type", .s "full_status")]

/-- Argument dict of the `generate_inventory_report` call
(supply_chain_executor.py). -/
def supplyReportArgs : PyVal :=
  .dict [("report_type", .s "low_stock_alert"),
         ("date_range", .s "2024-01-01_2024-01-31"),
         ("location_filter", .s "all")]

/-- `SupplyChainAgentExecutor._process_supply_chain_tools`. -/
def processSupplyChainTools (tools : SupplyChainTools) (user_message : String)
    (_ctx : RequestContext) : List ToolEntry :=
  let ml := pyLower user_message
  processToolGroups
    [(anyKw ["inventory", "stock", "check parts", "track"] ml,
      "track_inventory", tools.track_inventory supplyTrackArgs),
     (anyKw ["order", "purchase", "buy parts", "procurement"] ml,
      "order_parts", tools.order_parts supplyOrderArgs),
     (anyKw ["supplier", "vendor", "check supplier"] ml,
      "check_supplier_status", tools.check_supplier_status supplySupplierArgs),
     (anyKw ["report", "inventory report", "summary"] ml,
      "generate_inventory_report", tools.generate_inventory_report supplyReportArgs)]

/-! ## Domain executor response merge and `execute_task` -/

/-- The `   - Key Title: value` lines rendered for a dict-valued tool
result (`_combine_responses`, identical in all three executors). -/
def renderToolItems : List (String × PyVal) → String
  | [] => ""
  | (k, v) :: kvs =>
      "   - " ++ pyTitle (underscoresToSpaces k) ++ ": " ++ pyStr v ++ "\n" ++
        renderToolItems kvs

/-- The block rendered for one tool-results entry (`_combine_responses`). -/
def renderToolEntry (t : ToolEntry) : String :=
  if t.tool != "error" then
    "✅ **" ++ pyTitle (underscoresToSpaces t.tool) ++ ":**\n" ++
      (match t.result with
       | .dict kvs => renderToolItems kvs
       | r => "   - Result: " ++ pyStr r ++ "\n") ++ "\n"
  else
    "❌ **Error:** " ++ pyStr t.result ++ "\n\n"

/-- All tool-result blocks in order. -/
def renderToolEntries : List ToolEntry → String
  | [] => ""
  | t :: ts => renderToolEntry t ++ renderToolEntries ts

/-- `_combine_responses` (same shape in hr / meeting / supply-chain
executors; only the section header differs): the completion text verbatim
when no tools fired, otherwise the completion text followed by the
delimited tool-actions section. -/
def combineResponses (header llm_response : String)
    (tool_results : List ToolEntry) : String :=
  if tool_results.isEmpty then llm_response
  else llm_response ++ "\n\n" ++ header ++ renderToolEntries tool_results

/-- Demo-mode fallback marker (aviation_mas_a2a/agents/base_agent.py). -/
def demoMarker : String := "[DEMO MODE"

/-- Modelled from the spec: `BaseAgentExecutor._call_llm`
(executors/base_executor.py) is not among the sources.  Per spec §4.2
step 1 and §7, a completion failure inside a domain agent executor is
recovered locally and substituted with a deterministic demo-mode fallback
string, with the marker wording of
`aviation_mas_a2a/agents/base_agent.py` lines 104-119. -/
def callLlmDegrade (agent_name : String) (complete : LlmOracle)
    (message : String) : String :=
  match complete message with
  | .ok response => response
  | .error _ =>
      "[DEMO MODE - LLM Unavailable] " ++ agent_name ++ " received: " ++ message

/-- `HRAgentExecutor.execute_task`: completion, tool detection, merge, one
`"hr_response"` artifact, COMPLETED. -/
def hrExecuteTask (complete : LlmOracle) (tools : HrTools)
    (ctx : RequestContext) : TaskOutcome :=
  let llm_response := callLlmDegrade "Aviation HR Agent" complete ctx.user_message
  let tool_results := processHrTools tools ctx.user_message ctx
  let final_response :=
    combineResponses "## HR System Actions Performed:\n\n" llm_response tool_results
  { state := .completed,
    artifacts := [⟨final_response, "hr_response",
      [("agent_type", .s "hr"),
       ("tools_used", .b (tool_results.length > 0)),
       ("tenant_id", .s ctx.tenant_id)]⟩],
    error := none }

/-- `MeetingAgentExecutor.execute_task`. -/
def meetingExecuteTask (complete : LlmOracle) (tools : MeetingTools)
    (ctx : RequestContext) : TaskOutcome :=
  let llm_response := callLlmDegrade "Aviation Meeting Agent" complete ctx.user_message
  let tool_results := processMeetingTools tools ctx.user_message ctx
  let final_response :=
    combineResponses "## Meeting System Actions Performed:\n\n" llm_response tool_results
  { state := .completed,
    artifacts := [⟨final_response, "meeting_response",
      [("agent_type", .s "meeting"),
       ("tools_used", .b (tool_results.length > 0)),
       ("tenant_id", .s ctx.tenant_id)]⟩],
    error := none }

/-- `SupplyChainAgentExecutor.execute_task`. -/
def supplyChainExecuteTask (complete : LlmOracle) (tools : SupplyChainTools)
    (ctx : RequestContext) : TaskOutcome :=
  let llm_response := callLlmDegrade "Aviation Supply Chain Agent" complete ctx.user_message
  let tool_results := processSupplyChainTools tools ctx.user_message ctx
  let final_response :=
    combineResponses "## Supply Chain System Actions Performed:\n\n" llm_response tool_results
  { state := .completed,
    artifacts := [⟨final_response, "supply_chain_response",
      [("agent_type", .s "supply_chain"),
       ("tools_used", .b (tool_results.length > 0)),
       ("tenant_id", .s ctx.tenant_id)]⟩],
    error := none }

/-! ## Domain tool operations (mcp_servers)

The three operations cited by the spec's tool contract, with in-memory
stores passed and returned explicitly.  `datetime.now()` renderings and the
generated `uuid4` fragment are parameters, since they are environment
inputs.  Argument mappings are typed records whose `Option` fields mirror
each `.get(key, default)`. -/

/-- Python dict lookup `db.get`/`db[k]` over an insertion-ordered store. -/
def getKey {α : Type} (db : List (String × α)) (k : String) : Option α :=
  (db.find? fun kv => kv.1 == k).map fun kv => kv.2

/-- Python dict assignment `db[k] = v`: update in place, else append. -/
def setKey {α : Type} (db : List (String × α)) (k : String) (v : α) :
    List (String × α) :=
  if db.any (fun kv => kv.1 == k) then
    db.map fun kv => if kv.1 == k then (k, v) else kv
  else db ++ [(k, v)]

/-- Argument mapping of `create_employee_record` (hr_server/tools.py). -/
structure EmployeeData where
  employee_id : Option String
  name : Option String
  position : Option String
  department : Option String
  hire_date : Option String
  certifications : Option (List String)
deriving Repr, DecidableEq

/-- An `employees_db` record (hr_server/tools.py). -/
structure Employee where
  employee_id : String
  name : String
  position : String
  department : String
  hire_date : String
  certifications : List String
  status : String
  created_at : String
deriving Repr, DecidableEq

/-- Result mapping of `create_employee_record`. -/
structure CreateEmployeeResult where
  status : String
  message : String
  employee_id : String
  details : Employee
deriving Repr, DecidableEq

/-- `create_employee_record` (hr_server/tools.py lines 19-48): `uuid8`
stands for `str(uuid.uuid4())[:8]`, `nowDate`/`nowIso` for the two
`datetime.now()` renderings. -/
def create_employee_record (uuid8 nowDate nowIso : String)
    (employees_db : List (String × Employee)) (employee_data : EmployeeData) :
    CreateEmployeeResult × List (String × Employee) :=
  let employee_id := employee_data.employee_id.getD ("EMP_" ++ uuid8)
  let employee : Employee :=
    { employee_id,
      name := employee_data.name.getD "Unknown",
      position := employee_data.position.getD "Staff",
      department := employee_data.department.getD "General",
      hire_date := employee_data.hire_date.getD nowDate,
      certifications := employee_data.certifications.getD [],
      status := "active",
      created_at := nowIso }
  ({ status := "success",
     message := "Employee " ++ employee.name ++ " created successfully",
     employee_id,
     details := employee },
   setKey employees_db employee_id employee)

/-- A `bookings_db` record (meeting_server/tools.py); the two cancellation
fields are absent until `cancel_booking` sets them. -/
structure Booking where
  booking_id : String
  room_id : String
  room_name : String
  meeting_title : String
  organizer : String
  start_time : String
  end_time : String
  attendees : List String
  equipment_needed : List String
  status : String
  created_at : String
  cancellation_reason : Option String
  cancelled_at : Option String
deriving Repr, DecidableEq

/-- Argument mapping of `cancel_booking` (meeting_server/tools.py); the
executor also passes `cancelled_by`, which the tool never reads. -/
structure CancelData where
  booking_id : Option String
  reason : Option String
deriving Repr, DecidableEq

/-- Result mapping of `cancel_booking`; the error branch carries only
`status` and `message`. -/
structure CancelBookingResult where
  status : String
  message : String
  booking_id : Option String
  details : Option Booking
deriving Repr, DecidableEq

/-- Python str() of the optional booking id inside the f-string. -/
def showOptId : Option String → String
  | none => "None"
  | some s => s

/-- `cancel_booking` (meeting_server/tools.py lines 88-116): a missing
booking id is an expected domain error answered with a structured error
payload, never an exception. -/
def cancel_booking (nowIso : String) (bookings_db : List (String × Booking))
    (cancel_data : CancelData) : CancelBookingResult × List (String × Booking) :=
  let reason := cancel_data.reason.getD "User requested cancellation"
  match cancel_data.booking_id with
  | some id =>
      match getKey bookings_db id with
      | some booking =>
          let booking' :=
            { booking with
                status := "cancelled",
                cancellation_reason := some reason,
                cancelled_at := some nowIso }
          ({ status := "success",
             message := "Booking " ++ id ++ " cancelled successfully",
             booking_id := some id,
             details := some booking' },
           setKey bookings_db id booking')
      | none =>
          ({ status := "error",
             message := "Booking " ++ id ++ " not found",
             booking_id := none, details := none },
           bookings_db)
  | none =>
      ({ status := "error",
         message := "Booking " ++ showOptId none ++ " not found",
         booking_id := none, details := none },
       bookings_db)

/-- An `inventory_db` record (supply_chain_server/tools.py). -/
structure InvItem where
  name : String
  category : String
  current_stock : Int
  min_stock : Int
deriving Repr, DecidableEq

/-- Argument mapping of `track_inventory` (supply_chain_server/tools.py). -/
structure InventoryData where
  part_number : Option String
  location : Option String
  check_type : Option String
deriving Repr, DecidableEq

/-- The `details` payload of `track_inventory`: the stock report for a
known part, or the structured not-found record. -/
inductive InventoryDetails where
  | found (part_number part_name category : String)
      (current_stock minimum_stock : Int) (location stock_status : String)
      (reorder_needed : Bool)
  | notFound (part_number status message : String)
deriving Repr, DecidableEq

/-- Result mapping of `track_inventory`. -/
structure TrackInventoryResult where
  status : String
  message : String
  details : InventoryDetails
deriving Repr, DecidableEq

/-- `track_inventory` (supply_chain_server/tools.py lines 27-64): an
unknown part number is answered with a `"success"` envelope whose details
record `not_found` — a structured payload, never an exception. -/
def track_inventory (inventory_db : List (String × InvItem))
    (inventory_data : InventoryData) : TrackInventoryResult :=
  let part_number := inventory_data.part_number.getD "ENG_PART_001"
  let location := inventory_data.location.getD "Main Warehouse"
  let details :=
    match getKey inventory_db part_number with
    | some item =>
        InventoryDetails.found part_number item.name item.category
          item.current_stock item.min_stock location
          (if item.current_stock > item.min_stock then "normal" else "low")
          (item.current_stock ≤ item.min_stock)
    | none =>
        InventoryDetails.notFound part_number "not_found"
          ("Part " ++ part_number ++ " not found in inventory")
  { status := "success",
    message := "Inventory tracked for part " ++ part_number,
    details }

/-! ## Helper notions for the synthesis proofs -/

/-- An agent-response entry whose content extraction does not raise
(Python: its result is either a string or a dict with a non-empty
artifact list). -/
def entryWf (r : AgentResponse) : Prop :=
  ∃ c, respContent r.result = Except.ok c

/-- The content Python extracts from an entry (defaulting on the
unreachable raising case). -/
def entryContentD (r : AgentResponse) : String :=
  match respContent r.result with
  | .ok c => c
  | .error _ => ""

/-- The synthesis-prompt fragment one entry contributes. -/
def entryPromptPiece (r : AgentResponse) : String :=
  if r.status == "success" then
    "**" ++ pyTitle r.agent ++ " Agent Response:**\n" ++ entryContentD r ++ "\n\n"
  else
    "**" ++ pyTitle r.agent ++ " Agent:** Failed to process request\n\n"

/-- All synthesis-prompt fragments in order. -/
def promptPieces : List AgentResponse → String
  | [] => ""
  | r :: rs => entryPromptPiece r ++ promptPieces rs

/-- The concatenation-fallback fragment one entry contributes (error
entries contribute nothing). -/
def entryFallbackPiece (r : AgentResponse) : String :=
  if r.status == "success" then
    "## " ++ pyTitle r.agent ++ " Agent:\n" ++ entryContentD r ++ "\n\n"
  else ""

/-- All fallback fragments in order. -/
def fallbackPieces : List AgentResponse → String
  | [] => ""
  | r :: rs => entryFallbackPiece r ++ fallbackPieces rs

theorem strContains_trans {h m n : String}
    (hmn : strContains m n = true) (hhm : strContains h m = true) :
    strContains h n = true :=
  charsContain_trans hmn hhm

theorem promptEntries_eq_ok (rs : List AgentResponse)
    (hwf : ∀ r ∈ rs, entryWf r) :
    promptEntries rs = .ok (promptPieces rs) := by
  induction rs with
  | nil => rfl
  | cons r rs ih =>
    have hr := hwf r (by simp)
    have ihh := ih fun x hx => hwf x (by simp [hx])
    obtain ⟨c, hc⟩ := hr
    by_cases hs : r.status == "success"
    · simp [promptEntries, hs, hc, Except.map, ihh, promptPieces,
        entryPromptPiece, entryContentD, Except.bind, bind]
    · simp [promptEntries, hs, ihh, promptPieces, entryPromptPiece,
        entryContentD, Except.bind, bind]

theorem fallbackEntries_eq_ok (rs : List AgentResponse)
    (hwf : ∀ r ∈ rs, entryWf r) :
    fallbackEntries rs = .ok (fallbackPieces rs) := by
  induction rs with
  | nil => rfl
  | cons r rs ih =>
    have hr := hwf r (by simp)
    have ihh := ih fun x hx => hwf x (by simp [hx])
    obtain ⟨c, hc⟩ := hr
    by_cases hs : r.status == "success"
    · simp [fallbackEntries, hs, hc, Except.map, ihh, fallbackPieces,
        entryFallbackPiece, entryContentD, Except.bind, bind]
    · simp [fallbackEntries, hs, ihh, fallbackPieces, entryFallbackPiece,
        entryContentD, Except.bind, bind]

theorem mem_promptPieces {r : AgentResponse} {rs : List AgentResponse}
    (hmem : r ∈ rs) :
    ∃ x y, promptPieces rs = x ++ entryPromptPiece r ++ y := by
  induction rs with
  | nil => cases hmem
  | cons a as ih =>
    rcases List.mem_cons.mp hmem with rfl | hmem'
    · exact ⟨"", promptPieces as, by simp [promptPieces]⟩
    · obtain ⟨x, y, hxy⟩ := ih hmem'
      exact ⟨entryPromptPiece a ++ x, y, by
        simp [promptPieces, hxy, String.append_assoc]⟩

theorem mem_fallbackPieces {r : AgentResponse} {rs : List AgentResponse}
    (hmem : r ∈ rs) :
    ∃ x y, fallbackPieces rs = x ++ entryFallbackPiece r ++ y := by
  induction rs with
  | nil => cases hmem
  | cons a as ih =>
    rcases List.mem_cons.mp hmem with rfl | hmem'
    · exact ⟨"", fallbackPieces as, by simp [fallbackPieces]⟩
    · obtain ⟨x, y, hxy⟩ := ih hmem'
      exact ⟨entryFallbackPiece a ++ x, y, by
        simp [fallbackPieces, hxy, String.append_assoc]⟩

/-- The fan-out entry of every branch is well formed as soon as a
successful branch result carries at least one artifact. -/
theorem branchResponse_entryWf (oracle : ExecOracle) (ctx : RequestContext)
    (d : Domain)
    (hart : ∀ r, oracle d (deriveContext ctx d) = .ok r → r.artifacts ≠ []) :
    entryWf (branchResponse oracle ctx d) := by
  unfold entryWf branchResponse
  cases hor : oracle d (deriveContext ctx d) with
  | ok r =>
    have := hart r hor
    cases har : r.artifacts with
    | nil => exact absurd har this
    | cons a rest => exact ⟨a.content, by simp [respContent, har]⟩
  | error e => exact ⟨"Agent execution failed: " ++ e, by simp [respContent]⟩

/-- Under well-formed entries, synthesis never raises, whatever the
completion capability does. -/
theorem synthesizeResponses_isOk (llm : LlmOracle) (rs : List AgentResponse)
    (msg : String) (hwf : ∀ r ∈ rs, entryWf r) :
    ∃ s, synthesizeResponses llm rs msg = .ok s := by
  match rs with
  | [r] =>
    obtain ⟨c, hc⟩ := hwf r (by simp)
    exact ⟨c, by simpa [synthesizeResponses] using hc⟩
  | [] =>
    cases hllm : llm (synthesisHeader msg ++ synthesisFooter) with
    | ok s =>
      exact ⟨s, by
        simp [synthesizeResponses, buildSynthesisPrompt, promptEntries, Except.map,
          Except.bind, bind, promptPieces, hllm]⟩
    | error e =>
      exact ⟨fallbackHeader, by
        simp [synthesizeResponses, buildSynthesisPrompt, promptEntries, fallbackEntries,
          Except.map, Except.bind, bind, promptPieces, fallbackPieces, hllm]⟩
  | r₁ :: r₂ :: rest =>
    have hpe := promptEntries_eq_ok (r₁ :: r₂ :: rest) hwf
    have hfe := fallbackEntries_eq_ok (r₁ :: r₂ :: rest) hwf
    cases hllm : llm (synthesisHeader msg ++ promptPieces (r₁ :: r₂ :: rest) ++
        synthesisFooter) with
    | ok s =>
      exact ⟨s, by
        simp [synthesizeResponses, buildSynthesisPrompt, hpe, Except.map,
          Except.bind, bind, hllm]⟩
    | error e =>
      exact ⟨fallbackHeader ++ fallbackPieces (r₁ :: r₂ :: rest), by
        simp [synthesizeResponses, buildSynthesisPrompt, hpe, hfe, Except.map,
          Except.bind, bind, hllm]⟩

/-! ## Claims -/

/-- C1: the Orchestrator's domain classification selects a domain (hr,
meeting, supply_chain) iff at least one of that domain's fixed keywords
occurs as a substring of the lower-cased message, and the resulting
selection can have size 0, size 1, or size greater than 1. -/
theorem domain_classification_keyword_iff :
    (∀ (msg : String) (d : Domain),
      d ∈ determineRequiredAgents msg ↔
        ∃ kw ∈ agentRouting d, strContains (pyLower msg) kw = true) ∧
    (∃ m, (determineRequiredAgents m).length = 0) ∧
    (∃ m, (determineRequiredAgents m).length = 1) ∧
    (∃ m, 1 < (determineRequiredAgents m).length) := by
  refine ⟨?_, ⟨"hello there", by decide⟩, ⟨"employee", by decide⟩,
    ⟨"book a room for training", by decide⟩⟩
  intro msg d
  have hall : ∀ d' : Domain, d' ∈ allDomains := by
    intro d'; cases d' <;> simp [allDomains]
  simp [determineRequiredAgents, List.mem_filter, hall, List.any_eq_true]

/-- C8: each domain tool operation returns a result mapping whose `status`
field is `"success"` or `"error"`, and an expected domain error such as a
not-found booking id yields a structured error payload (with the store
untouched) rather than an exception. -/
theorem tool_operations_status_contract :
    (∀ uuid8 nowDate nowIso employees_db employee_data,
        (create_employee_record uuid8 nowDate nowIso employees_db employee_data).1.status
            = "success" ∨
        (create_employee_record uuid8 nowDate nowIso employees_db employee_data).1.status
            = "error") ∧
    (∀ nowIso bookings_db cancel_data,
        (cancel_booking nowIso bookings_db cancel_data).1.status = "success" ∨
        (cancel_booking nowIso bookings_db cancel_data).1.status = "error") ∧
    (∀ inventory_db inventory_data,
        (track_inventory inventory_db inventory_data).status = "success" ∨
        (track_inventory inventory_db inventory_data).status = "error") ∧
    (∀ nowIso bookings_db id reason, getKey bookings_db id = none →
        (cancel_booking nowIso bookings_db ⟨some id, reason⟩).1 =
          ⟨"error", "Booking " ++ id ++ " not found", none, none⟩ ∧
        (cancel_booking nowIso bookings_db ⟨some id, reason⟩).2 = bookings_db) := by
  refine ⟨?_, ?_, ?_, ?_⟩
  · intro _ _ _ _ _; exact Or.inl rfl
  · intro nowIso db d
    unfold cancel_booking
    rcases d with ⟨bid, reason⟩
    cases bid with
    | none => exact Or.inr rfl
    | some id =>
      cases h : getKey db id with
      | none => simp [h]
      | some b => simp [h]
  · intro _ _; exact Or.inl rfl
  · intro nowIso db id reason h
    unfold cancel_booking
    simp [h]

/-- Witness for C8 at concrete inputs: cancelling an id absent from an
empty store returns the structured not-found error and leaves the store
unchanged. -/
theorem tool_operations_status_contract_witness :
    (cancel_booking "2024-02-01T00:00:00" [] ⟨some "BOOK_X", none⟩).1 =
      ⟨"error", "Booking BOOK_X not found", none, none⟩ ∧
    (cancel_booking "2024-02-01T00:00:00" [] ⟨some "BOOK_X", none⟩).2 = [] :=
  tool_operations_status_contract.2.2.2 "2024-02-01T00:00:00" [] "BOOK_X" none rfl

/-- An HR tool layer whose employee-creation call raises. -/
def failingCreateHrTools : HrTools :=
  ⟨fun _ => .error "boom",
   fun _ => .ok (.s "trained"),
   fun _ => .ok (.s "certified"),
   fun _ => .ok (.s "reported")⟩

/-- C9 counterexample: in the message `"onboard the new hire for training"`
both the employee-creation keyword group and the training keyword group
fire, the employee-creation call raises, and the tool-results list is just
the single error entry — the training group's detection never runs, so the
remaining tool detection does not continue past a raising tool call. -/
theorem tool_failure_counterexample :
    anyKw ["training", "schedule", "course"]
        (pyLower "onboard the new hire for training") = true ∧
    processHrTools failingCreateHrTools "onboard the new hire for training"
        ⟨"t1", "c1", "onboard the new hire for training", "tenantA", "u1"⟩ =
      [⟨"error", .s "Tool execution failed: boom"⟩] :=
  ⟨rfl, rfl⟩

/-- C9 as amended: a raising tool call is recovered locally as one
error entry (tool name `"error"`) appended after the entries already
collected, the tool-detection pass stops there (the remaining keyword
groups are skipped, because one `try/except` wraps the whole pass), and
the overall task is not aborted — every domain executor still reaches
COMPLETED. -/
theorem tool_failure_recovery_amended :
    (∀ (groups₁ : List (Bool × String × Except String PyVal))
        (name e : String) (groups₂ : List (Bool × String × Except String PyVal)),
        (∀ g ∈ groups₁, g.1 = true → ∃ v, g.2.2 = .ok v) →
        processToolGroups (groups₁ ++ (true, name, .error e) :: groups₂) =
          processToolGroups groups₁ ++
            [⟨"error", .s ("Tool execution failed: " ++ e)⟩]) ∧
    (∀ complete hrTools ctx, (hrExecuteTask complete hrTools ctx).state = .completed) ∧
    (∀ complete meetingTools ctx,
        (meetingExecuteTask complete meetingTools ctx).state = .completed) ∧
    (∀ complete supplyTools ctx,
        (supplyChainExecuteTask complete supplyTools ctx).state = .completed) := by
  refine ⟨?_, fun _ _ _ => rfl, fun _ _ _ => rfl, fun _ _ _ => rfl⟩
  intro groups₁ name e groups₂ hok
  induction groups₁ with
  | nil => simp [processToolGroups]
  | cons g gs ih =>
    obtain ⟨cond, gname, call⟩ := g
    have ihh := ih fun x hx => hok x (by simp [hx])
    by_cases hc : cond = true
    · subst hc
      obtain ⟨v, hv⟩ := hok (true, gname, call) (by simp) rfl
      have hv' : call = Except.ok v := hv
      simp [processToolGroups, hv', ihh]
    · simp [processToolGroups, hc, ihh]

/-- Witness for C9 as amended: with the first and second groups firing and
the first call raising, the pass yields exactly the error entry after the
(empty) earlier results, and the HR task still completes. -/
theorem tool_failure_recovery_amended_witness :
    processToolGroups ([] ++ (true, "create_employee_record",
        (Except.error "boom" : Except String PyVal)) ::
        [(true, "schedule_training", Except.ok (PyVal.s "trained"))]) =
      processToolGroups [] ++ [⟨"error", .s "Tool execution failed: boom"⟩] ∧
    (hrExecuteTask (fun _ => .error "down") failingCreateHrTools
        ⟨"t1", "c1", "onboard the new hire for training", "tenantA", "u1"⟩).state =
      .completed :=
  ⟨tool_failure_recovery_amended.1 [] "create_employee_record" "boom"
      [(true, "schedule_training", Except.ok (PyVal.s "trained"))]
      (fun g hg => absurd hg (by simp)),
   tool_failure_recovery_amended.2.1 (fun _ => .error "down") failingCreateHrTools
      ⟨"t1", "c1", "onboard the new hire for training", "tenantA", "u1"⟩⟩

/-- When the completion capability fails, the degraded completion text
starts with the demo-mode marker. -/
theorem callLlmDegrade_marker (agent_name : String) (complete : LlmOracle)
    (msg : String) (h : ∃ e, complete msg = .error e) :
    strContains (callLlmDegrade agent_name complete msg) demoMarker = true := by
  obtain ⟨e, he⟩ := h
  have hdata : ("[DEMO MODE - LLM Unavailable] " : String).data =
      ("[DEMO MODE" : String).data ++ (" - LLM Unavailable] " : String).data := rfl
  refine (charsContain_iff _ _).mpr
    ⟨[], (" - LLM Unavailable] " : String).data ++ agent_name.data ++
      (" received: " : String).data ++ msg.data, ?_⟩
  simp [callLlmDegrade, he, String.data_append, demoMarker, hdata,
    List.append_assoc]

/-- The merged executor response keeps the completion text as its head, so
a marker-containing completion text stays visible. -/
theorem combineResponses_marker (header fb : String)
    (tool_results : List ToolEntry) (h : strContains fb demoMarker = true) :
    strContains (combineResponses header fb tool_results) demoMarker = true := by
  unfold combineResponses
  by_cases he : tool_results.isEmpty
  · simpa [he] using h
  · simp only [he, if_neg, Bool.false_eq_true, not_false_iff]
    exact strContains_append_right _
      (strContains_append_right _ (strContains_append_right _ h))

/-- C7: if every completion call fails, each domain executor still reaches
COMPLETED (never FAILED) and its single artifact's content contains the
demo-mode fallback marker. -/
theorem completion_failure_demo_mode (complete : LlmOracle)
    (err : String → String) (hfail : ∀ m, complete m = .error (err m))
    (hrTools : HrTools) (meetingTools : MeetingTools)
    (supplyTools : SupplyChainTools) (ctx : RequestContext) :
    ((hrExecuteTask complete hrTools ctx).state = .completed ∧
      ∃ a, (hrExecuteTask complete hrTools ctx).artifacts = [a] ∧
        strContains a.content demoMarker = true) ∧
    ((meetingExecuteTask complete meetingTools ctx).state = .completed ∧
      ∃ a, (meetingExecuteTask complete meetingTools ctx).artifacts = [a] ∧
        strContains a.content demoMarker = true) ∧
    ((supplyChainExecuteTask complete supplyTools ctx).state = .completed ∧
      ∃ a, (supplyChainExecuteTask complete supplyTools ctx).artifacts = [a] ∧
        strContains a.content demoMarker = true) := by
  have hH := callLlmDegrade_marker "Aviation HR Agent" complete
    ctx.user_message ⟨err ctx.user_message, hfail ctx.user_message⟩
  have hM := callLlmDegrade_marker "Aviation Meeting Agent" complete
    ctx.user_message ⟨err ctx.user_message, hfail ctx.user_message⟩
  have hS := callLlmDegrade_marker "Aviation Supply Chain Agent" complete
    ctx.user_message ⟨err ctx.user_message, hfail ctx.user_message⟩
  refine ⟨⟨rfl, ?_⟩, ⟨rfl, ?_⟩, ⟨rfl, ?_⟩⟩
  · exact ⟨_, rfl, combineResponses_marker _ _ _ hH⟩
  · exact ⟨_, rfl, combineResponses_marker _ _ _ hM⟩
  · exact ⟨_, rfl, combineResponses_marker _ _ _ hS⟩

/-- Containment from a decomposition of the character data. -/
theorem strContains_of_data_decomp {p n : String} {x y : List Char}
    (h : p.data = x ++ n.data ++ y) : strContains p n = true :=
  (charsContain_iff _ _).mpr ⟨x, y, h⟩

/-- Unfolding of the orchestrator on a message that matches more than one
domain: parallel fan-out over the matched set, then synthesis. -/
theorem orchestratorExecuteTask_multi (llm : LlmOracle) (oracle : ExecOracle)
    (ctx : RequestContext)
    (hgt : 1 < (determineRequiredAgents ctx.user_message).length) :
    orchestratorExecuteTask llm oracle ctx =
      match synthesizeResponses llm
          (executeAgentsParallel oracle (determineRequiredAgents ctx.user_message) ctx)
          ctx.user_message with
      | .ok final_response =>
          { state := .completed,
            artifacts := [⟨final_response, "orchestrated_response",
              [("agent_type", .s "orchestrator"),
               ("sub_agents_used",
                .list ((determineRequiredAgents ctx.user_message).map agentTag)),
               ("tenant_id", .s ctx.tenant_id)]⟩],
            error := none }
      | .error e =>
          { state := .failed, artifacts := [],
            error := some ("Orchestration failed: " ++ e) } := by
  unfold orchestratorExecuteTask
  simp [hgt]

/-- Witness for C7: an always-failing completion capability with the real
tool passes left inert, on a concrete HR-flavoured message. -/
theorem completion_failure_demo_mode_witness :
    (hrExecuteTask (fun _ => .error "quota") failingCreateHrTools
        ⟨"t1", "c1", "hello", "tenantA", "u1"⟩).state = .completed :=
  (completion_failure_demo_mode (fun _ => .error "quota") (fun _ => "quota")
    (fun _ => rfl) failingCreateHrTools
    ⟨fun _ => .ok (.s "b"), fun _ => .ok (.s "a"), fun _ => .ok (.s "c"),
     fun _ => .ok (.s "r")⟩
    ⟨fun _ => .ok (.s "t"), fun _ => .ok (.s "o"), fun _ => .ok (.s "s"),
     fun _ => .ok (.s "g")⟩
    ⟨"t1", "c1", "hello", "tenantA", "u1"⟩).1.1

/-- C2: when the message matches exactly one domain and that domain's
executor completes successfully, the Orchestrator invokes only that
executor — with a context whose task id is the parent task id suffixed by
the domain tag — and the final response equals the executor's first
artifact content unchanged. -/
theorem single_domain_pass_through (llm : LlmOracle) (oracle oracle' : ExecOracle)
    (ctx : RequestContext) (d : Domain) (r : AgentExecutionResult) (a : Artifact)
    (rest : List Artifact)
    (hsel : determineRequiredAgents ctx.user_message = [d])
    (hexec : oracle d (deriveContext ctx d) = .ok r)
    (hart : r.artifacts = a :: rest) :
    (deriveContext ctx d).task_id = ctx.task_id ++ "_" ++ agentTag d ∧
    (orchestratorExecuteTask llm oracle ctx).state = .completed ∧
    (orchestratorExecuteTask llm oracle ctx).artifacts.map Artifact.content =
      [a.content] ∧
    (oracle' d (deriveContext ctx d) = oracle d (deriveContext ctx d) →
      orchestratorExecuteTask llm oracle' ctx = orchestratorExecuteTask llm oracle ctx) := by
  refine ⟨rfl, ?_, ?_, ?_⟩
  · simp only [orchestratorExecuteTask, hsel]
    simp [executeAgentsSequential, executeAgentsParallel, branchResponse, hexec,
      synthesizeResponses, respContent, hart]
  · simp only [orchestratorExecuteTask, hsel]
    simp [executeAgentsSequential, executeAgentsParallel, branchResponse, hexec,
      synthesizeResponses, respContent, hart]
  · intro hagree
    simp only [orchestratorExecuteTask, hsel]
    simp [executeAgentsSequential, executeAgentsParallel, branchResponse, hexec,
      hagree, synthesizeResponses, respContent, hart]

/-- Witness for C2 at a concrete single-domain message. -/
theorem single_domain_pass_through_witness :
    (orchestratorExecuteTask (fun _ => .ok "SYNTH")
        (fun _ _ => .ok ⟨"Aviation HR Agent", .completed,
          [⟨"HR CONTENT", "hr_response", []⟩], none⟩)
        ⟨"t1", "c1", "employee", "tenantA", "u1"⟩).artifacts.map Artifact.content =
      ["HR CONTENT"] :=
  (single_domain_pass_through (fun _ => .ok "SYNTH")
    (fun _ _ => .ok ⟨"Aviation HR Agent", .completed,
      [⟨"HR CONTENT", "hr_response", []⟩], none⟩)
    (fun _ _ => .ok ⟨"Aviation HR Agent", .completed,
      [⟨"HR CONTENT", "hr_response", []⟩], none⟩)
    ⟨"t1", "c1", "employee", "tenantA", "u1"⟩ Domain.hr
    ⟨"Aviation HR Agent", .completed, [⟨"HR CONTENT", "hr_response", []⟩], none⟩
    ⟨"HR CONTENT", "hr_response", []⟩ [] (by decide) rfl rfl).2.2.1

/-- C10: when the message matches exactly one domain and that domain's
executor raises, the Orchestrator catches the exception, still reaches
COMPLETED, and the final artifact content is `"Agent execution failed: "`
followed by the exception message. -/
theorem single_domain_failure_isolated (llm : LlmOracle) (oracle : ExecOracle)
    (ctx : RequestContext) (d : Domain) (e : String)
    (hsel : determineRequiredAgents ctx.user_message = [d])
    (hexec : oracle d (deriveContext ctx d) = .error e) :
    (orchestratorExecuteTask llm oracle ctx).state = .completed ∧
    (orchestratorExecuteTask llm oracle ctx).artifacts.map Artifact.content =
      ["Agent execution failed: " ++ e] := by
  constructor
  · simp only [orchestratorExecuteTask, hsel]
    simp [executeAgentsSequential, executeAgentsParallel, branchResponse, hexec,
      synthesizeResponses, respContent]
  · simp only [orchestratorExecuteTask, hsel]
    simp [executeAgentsSequential, executeAgentsParallel, branchResponse, hexec,
      synthesizeResponses, respContent]

/-- Witness for C10 at a concrete single-domain message with a raising
executor. -/
theorem single_domain_failure_isolated_witness :
    (orchestratorExecuteTask (fun _ => .ok "SYNTH") (fun _ _ => .error "db down")
        ⟨"t1", "c1", "employee", "tenantA", "u1"⟩).artifacts.map Artifact.content =
      ["Agent execution failed: db down"] :=
  (single_domain_failure_isolated (fun _ => .ok "SYNTH") (fun _ _ => .error "db down")
    ⟨"t1", "c1", "employee", "tenantA", "u1"⟩ Domain.hr "db down"
    (by decide) rfl).2

/-- C3 counterexample: `"what's the weather"` matches zero domain
keywords, yet the Orchestrator's resulting (final) artifact is tagged
`"orchestrated_response"`, not `"general_response"` — only the inner
general-query entry carries the `"general_response"` tag. -/
theorem general_query_artifact_type_counterexample :
    determineRequiredAgents "what's the weather" = [] ∧
    (orchestratorExecuteTask (fun _ => .ok "General aviation answer")
        (fun _ _ => .error "unused")
        ⟨"t1", "c1", "what's the weather", "tenantA", "u1"⟩).artifacts.map
      Artifact.artifact_type = ["orchestrated_response"] ∧
    ("orchestrated_response" : String) ≠ "general_response" :=
  ⟨rfl, rfl, by decide⟩

/-- C3 as amended: on a message matching zero domain keywords no domain
executor is invoked (the outcome is the same for every executor oracle),
the Orchestrator completes, the completion text is wrapped as a
`"general_response"`-typed artifact inside the general-query entry and
passed through unchanged as the final content — but the final artifact
itself is tagged `"orchestrated_response"`. -/
theorem general_query_routing (llm : LlmOracle) (oracle oracle' : ExecOracle)
    (ctx : RequestContext)
    (hsel : determineRequiredAgents ctx.user_message = []) :
    orchestratorExecuteTask llm oracle ctx = orchestratorExecuteTask llm oracle' ctx ∧
    (orchestratorExecuteTask llm oracle ctx).state = .completed ∧
    (orchestratorExecuteTask llm oracle ctx).artifacts.map Artifact.artifact_type =
      ["orchestrated_response"] ∧
    (∀ response, llm ctx.user_message = .ok response →
      (handleGeneralQuery llm ctx).result =
        .dict ⟨"Orchestrator", .completed, [⟨response, "general_response", []⟩], none⟩ ∧
      (orchestratorExecuteTask llm oracle ctx).artifacts.map Artifact.content =
        [response]) := by
  refine ⟨?_, ?_, ?_, ?_⟩
  · simp only [orchestratorExecuteTask, hsel]
    simp
  · simp only [orchestratorExecuteTask, hsel]
    cases hllm : llm ctx.user_message with
    | ok response =>
      simp [handleGeneralQuery, hllm, synthesizeResponses, respContent]
    | error e =>
      simp [handleGeneralQuery, hllm, synthesizeResponses, respContent]
  · simp only [orchestratorExecuteTask, hsel]
    cases hllm : llm ctx.user_message with
    | ok response =>
      simp [handleGeneralQuery, hllm, synthesizeResponses, respContent]
    | error e =>
      simp [handleGeneralQuery, hllm, synthesizeResponses, respContent]
  · intro response hllm
    constructor
    · simp [handleGeneralQuery, hllm]
    · simp only [orchestratorExecuteTask, hsel]
      simp [handleGeneralQuery, hllm, synthesizeResponses, respContent]

/-- Witness for C3 as amended at a concrete keyword-free message. -/
theorem general_query_routing_witness :
    (orchestratorExecuteTask (fun _ => .ok "General aviation answer")
        (fun _ _ => .error "unused")
        ⟨"t1", "c1", "what's the weather", "tenantA", "u1"⟩).artifacts.map
      Artifact.content = ["General aviation answer"] :=
  ((general_query_routing (fun _ => .ok "General aviation answer")
      (fun _ _ => .error "unused") (fun _ _ => .error "also unused")
      ⟨"t1", "c1", "what's the weather", "tenantA", "u1"⟩ rfl).2.2.2
    "General aviation answer" rfl).2

/-- C4: on a message matching two or more domains the Orchestrator invokes
every matched domain executor, completes, and the final artifact's
`sub_agents_used` metadata, read as a set, is exactly the matched domain
set. -/
theorem multi_domain_fanout (llm : LlmOracle) (oracle : ExecOracle)
    (ctx : RequestContext)
    (h2 : 1 < (determineRequiredAgents ctx.user_message).length)
    (hwf : ∀ d ∈ determineRequiredAgents ctx.user_message, ∀ r,
        oracle d (deriveContext ctx d) = .ok r → r.artifacts ≠ []) :
    (∀ d ∈ determineRequiredAgents ctx.user_message,
        branchResponse oracle ctx d ∈
          executeAgentsParallel oracle (determineRequiredAgents ctx.user_message) ctx) ∧
    (orchestratorExecuteTask llm oracle ctx).state = .completed ∧
    (∃ content, (orchestratorExecuteTask llm oracle ctx).artifacts =
        [⟨content, "orchestrated_response",
          [("agent_type", .s "orchestrator"),
           ("sub_agents_used",
            .list ((determineRequiredAgents ctx.user_message).map agentTag)),
           ("tenant_id", .s ctx.tenant_id)]⟩]) ∧
    (∀ t, t ∈ (determineRequiredAgents ctx.user_message).map agentTag ↔
        ∃ d ∈ determineRequiredAgents ctx.user_message, agentTag d = t) := by
  have hwfall : ∀ r ∈ executeAgentsParallel oracle
      (determineRequiredAgents ctx.user_message) ctx, entryWf r := by
    intro r hr
    obtain ⟨d, hd, rfl⟩ := List.mem_map.mp hr
    exact branchResponse_entryWf oracle ctx d (hwf d hd)
  obtain ⟨s, hs⟩ := synthesizeResponses_isOk llm _ ctx.user_message hwfall
  have hrun := orchestratorExecuteTask_multi llm oracle ctx h2
  rw [hs] at hrun
  refine ⟨?_, ?_, ⟨s, ?_⟩, ?_⟩
  · intro d hd
    exact List.mem_map_of_mem (branchResponse oracle ctx) hd
  · rw [hrun]
  · rw [hrun]
  · intro t
    simp [List.mem_map]


/-- Witness for C4 at a concrete two-domain message. -/
theorem multi_domain_fanout_witness :
    (orchestratorExecuteTask (fun _ => .ok "SYNTH")
        (fun _ _ => .ok ⟨"agent", .completed, [⟨"content", "resp", []⟩], none⟩)
        ⟨"t1", "c1", "book a room for training", "tenantA", "u1"⟩).state =
      .completed :=
  (multi_domain_fanout (fun _ => .ok "SYNTH")
    (fun _ _ => .ok ⟨"agent", .completed, [⟨"content", "resp", []⟩], none⟩)
    ⟨"t1", "c1", "book a room for training", "tenantA", "u1"⟩
    (by decide)
    (by
      intro d _ r hr
      cases hr
      simp)).2.1

/-- C5: in a fan-out over two or more matched domains in which exactly one
executor raises, the Orchestrator still completes, records the failed
branch with status `"error"`, puts that agent's
`"Failed to process request"` placeholder in the synthesis prompt, and
every successful sibling's artifact content appears in the synthesis
prompt. -/
theorem fanout_one_branch_failure (llm : LlmOracle) (oracle : ExecOracle)
    (ctx : RequestContext) (d0 : Domain) (e : String)
    (hmem : d0 ∈ determineRequiredAgents ctx.user_message)
    (h2 : 1 < (determineRequiredAgents ctx.user_message).length)
    (hfail : oracle d0 (deriveContext ctx d0) = .error e)
    (hrest : ∀ d ∈ determineRequiredAgents ctx.user_message, d ≠ d0 →
        ∃ r, oracle d (deriveContext ctx d) = .ok r ∧ r.artifacts ≠ []) :
    (orchestratorExecuteTask llm oracle ctx).state = .completed ∧
    branchResponse oracle ctx d0 ∈
      executeAgentsParallel oracle (determineRequiredAgents ctx.user_message) ctx ∧
    (branchResponse oracle ctx d0).status = "error" ∧
    ∃ p, buildSynthesisPrompt
        (executeAgentsParallel oracle (determineRequiredAgents ctx.user_message) ctx)
        ctx.user_message = .ok p ∧
      strContains p ("**" ++ pyTitle (agentTag d0) ++
        " Agent:** Failed to process request\n\n") = true ∧
      ∀ d ∈ determineRequiredAgents ctx.user_message, d ≠ d0 →
        ∀ r, oracle d (deriveContext ctx d) = .ok r →
          ∀ a rest, r.artifacts = a :: rest → strContains p a.content = true := by
  have hwfall : ∀ r ∈ executeAgentsParallel oracle
      (determineRequiredAgents ctx.user_message) ctx, entryWf r := by
    intro r hr
    obtain ⟨d, hd, rfl⟩ := List.mem_map.mp hr
    apply branchResponse_entryWf
    intro r' hr'
    by_cases hdd : d = d0
    · subst hdd
      rw [hfail] at hr'
      cases hr'
    · obtain ⟨r₂, h₂, hne⟩ := hrest d hd hdd
      rw [h₂] at hr'
      cases hr'
      exact hne
  obtain ⟨s, hs⟩ := synthesizeResponses_isOk llm _ ctx.user_message hwfall
  have hrun := orchestratorExecuteTask_multi llm oracle ctx h2
  rw [hs] at hrun
  have hpe := promptEntries_eq_ok _ hwfall
  have hmemb : branchResponse oracle ctx d0 ∈
      executeAgentsParallel oracle (determineRequiredAgents ctx.user_message) ctx :=
    List.mem_map_of_mem (branchResponse oracle ctx) hmem
  have hpieces : strContains
      (synthesisHeader ctx.user_message ++
        promptPieces (executeAgentsParallel oracle
          (determineRequiredAgents ctx.user_message) ctx) ++ synthesisFooter)
      (promptPieces (executeAgentsParallel oracle
        (determineRequiredAgents ctx.user_message) ctx)) = true :=
    strContains_of_middle _ _ _
  refine ⟨by rw [hrun], hmemb, by simp [branchResponse, hfail], ?_⟩
  refine ⟨synthesisHeader ctx.user_message ++
      promptPieces (executeAgentsParallel oracle
        (determineRequiredAgents ctx.user_message) ctx) ++ synthesisFooter,
    by simp [buildSynthesisPrompt, hpe, Except.map], ?_, ?_⟩
  · have hpieceF : entryPromptPiece (branchResponse oracle ctx d0) =
        "**" ++ pyTitle (agentTag d0) ++ " Agent:** Failed to process request\n\n" := by
      simp [entryPromptPiece, branchResponse, hfail]
    obtain ⟨x, y, hxy⟩ := mem_promptPieces hmemb
    have h1 : strContains (promptPieces (executeAgentsParallel oracle
        (determineRequiredAgents ctx.user_message) ctx))
        (entryPromptPiece (branchResponse oracle ctx d0)) = true := by
      rw [hxy]; exact strContains_of_middle x _ y
    rw [← hpieceF]
    exact strContains_trans h1 hpieces
  · intro d hd hdd r hr a rest hart
    have hb : branchResponse oracle ctx d = ⟨agentTag d, .dict r, "success"⟩ := by
      simp [branchResponse, hr]
    have hcontent : entryContentD ⟨agentTag d, RespVal.dict r, "success"⟩ = a.content := by
      simp [entryContentD, respContent, hart]
    have hpieceS : entryPromptPiece (branchResponse oracle ctx d) =
        "**" ++ pyTitle (agentTag d) ++ " Agent Response:**\n" ++ a.content ++ "\n\n" := by
      simp [entryPromptPiece, hb, hcontent]
    have hA : strContains (entryPromptPiece (branchResponse oracle ctx d))
        a.content = true := by
      rw [hpieceS]
      exact strContains_of_middle
        ("**" ++ pyTitle (agentTag d) ++ " Agent Response:**\n") a.content "\n\n"
    have hmembd : branchResponse oracle ctx d ∈ executeAgentsParallel oracle
        (determineRequiredAgents ctx.user_message) ctx :=
      List.mem_map_of_mem (branchResponse oracle ctx) hd
    obtain ⟨x, y, hxy⟩ := mem_promptPieces hmembd
    have hB : strContains (promptPieces (executeAgentsParallel oracle
        (determineRequiredAgents ctx.user_message) ctx))
        (entryPromptPiece (branchResponse oracle ctx d)) = true := by
      rw [hxy]; exact strContains_of_middle x _ y
    exact strContains_trans (strContains_trans hA hB) hpieces

/-- Witness for C5: the HR branch raises while the meeting branch succeeds
on a two-domain message, yet the orchestration completes. -/
theorem fanout_one_branch_failure_witness :
    (orchestratorExecuteTask (fun _ => .ok "SYNTH")
        (fun d _ => match d with
          | .hr => .error "hr down"
          | _ => .ok ⟨"m", .completed, [⟨"MEET CONTENT", "meeting_response", []⟩], none⟩)
        ⟨"t1", "c1", "book a room for training", "tenantA", "u1"⟩).state =
      .completed :=
  (fanout_one_branch_failure (fun _ => .ok "SYNTH")
    (fun d _ => match d with
      | .hr => .error "hr down"
      | _ => .ok ⟨"m", .completed, [⟨"MEET CONTENT", "meeting_response", []⟩], none⟩)
    ⟨"t1", "c1", "book a room for training", "tenantA", "u1"⟩ Domain.hr "hr down"
    (by decide) (by decide) rfl
    (by
      intro d hd hdd
      cases d with
      | hr => exact absurd rfl hdd
      | meeting =>
        exact ⟨⟨"m", .completed, [⟨"MEET CONTENT", "meeting_response", []⟩], none⟩,
          rfl, by simp⟩
      | supplyChain => exact absurd hd (by decide))).1

/-- C6: if the synthesis completion call raises on a multi-agent response
list, `_synthesize_responses` returns — without raising — the
deterministic fallback that concatenates each successful agent's raw
content under its per-agent heading. -/
theorem synthesis_fallback (llm : LlmOracle) (rs : List AgentResponse)
    (msg e : String) (hllm : ∀ p, llm p = .error e)
    (hwf : ∀ r ∈ rs, entryWf r) (hlen : 2 ≤ rs.length) :
    synthesizeResponses llm rs msg = .ok (fallbackHeader ++ fallbackPieces rs) ∧
    ∀ r ∈ rs, r.status = "success" →
      ∃ x y, fallbackHeader ++ fallbackPieces rs =
        x ++ ("## " ++ pyTitle r.agent ++ " Agent:\n" ++ entryContentD r ++ "\n\n") ++ y := by
  constructor
  · match rs, hwf with
    | [], _ => simp at hlen
    | [r], _ => simp at hlen
    | r₁ :: r₂ :: rest, hwf =>
      have hpe := promptEntries_eq_ok (r₁ :: r₂ :: rest) hwf
      have hfe := fallbackEntries_eq_ok (r₁ :: r₂ :: rest) hwf
      simp [synthesizeResponses, buildSynthesisPrompt, hpe, hfe, hllm,
        Except.map, Except.bind, bind]
  · intro r hr hsucc
    have hpiece : entryFallbackPiece r =
        "## " ++ pyTitle r.agent ++ " Agent:\n" ++ entryContentD r ++ "\n\n" := by
      simp [entryFallbackPiece, hsucc]
    obtain ⟨x, y, hxy⟩ := mem_fallbackPieces hr
    rw [hpiece] at hxy
    exact ⟨fallbackHeader ++ x, y, by
      rw [hxy]; simp [String.append_assoc]⟩

/-- Witness for C6 on a concrete two-entry response list and a failing
completion capability. -/
theorem synthesis_fallback_witness :
    synthesizeResponses (fun _ => .error "down")
        [⟨"hr", .str "HR SAYS", "success"⟩, ⟨"meeting", .str "MEET SAYS", "success"⟩]
        "q" =
      .ok (fallbackHeader ++ fallbackPieces
        [⟨"hr", .str "HR SAYS", "success"⟩, ⟨"meeting", .str "MEET SAYS", "success"⟩]) :=
  (synthesis_fallback (fun _ => .error "down")
    [⟨"hr", .str "HR SAYS", "success"⟩, ⟨"meeting", .str "MEET SAYS", "success"⟩]
    "q" "down" (fun _ => rfl)
    (by
      intro r hr
      rcases List.mem_cons.mp hr with rfl | hr'
      · exact ⟨"HR SAYS", rfl⟩
      · rcases List.mem_cons.mp hr' with rfl | h
        · exact ⟨"MEET SAYS", rfl⟩
        · cases h)
    (by decide)).1

end Aviation
